import Mathlib

/-!
Verification of the serde_variant name-only codec.

The serializer side embeds `src/ser.rs` (the canonical `Serializer`,
`TupleVariantSerializer` and `StructVariantSerializer`), the deserializer
side embeds `src/de.rs` (`Deserializer`, the `VariantName` enum/variant
access adapter) and the error taxonomy embeds `src/error.rs`.
Serde's visitor callbacks are passed in as explicit function arguments;
the pieces of glue that serde derives for concrete target types (the
derived enum visitor, the boundary `from_str` pairing with this decoder)
are modelled from the specification and marked as such.
-/

namespace SerdeVariant

instance {ε α : Type} [DecidableEq ε] [DecidableEq α] : DecidableEq (Except ε α)
  | .error e₁, .error e₂ =>
    if h : e₁ = e₂ then .isTrue (congrArg Except.error h)
    else .isFalse (fun hh => h (Except.error.inj hh))
  | .error _, .ok _ => .isFalse (fun hh => Except.noConfusion hh)
  | .ok _, .error _ => .isFalse (fun hh => Except.noConfusion hh)
  | .ok a₁, .ok a₂ =>
    if h : a₁ = a₂ then .isTrue (congrArg Except.ok h)
    else .isFalse (fun hh => h (Except.ok.inj hh))

/-- Direction of an operation, from `error.rs` (`Direction`). -/
inductive Direction where
  | Serialization
  | Deserialization
deriving DecidableEq

/-- Error codes, from `error.rs` (`ErrorCode`). -/
inductive ErrorCode where
  | Message (msg : String)
  | UnsupportedOperation (dir : Direction) (op : String)
  | InvalidType (unexpected : String) (expected : String)
  | InvalidVariantName (received : String) (allowed : List String)
  | TrailingCharacters
deriving DecidableEq

/-- The error type, from `error.rs` (`Error` wraps an `ErrorCode`). -/
structure Error where
  code : ErrorCode
deriving DecidableEq

/-- `de::Error::unknown_variant` for `Error`, from `error.rs`. -/
def Error.unknown_variant (variant : String) (expected : List String) : Error :=
  ⟨ErrorCode.InvalidVariantName variant expected⟩

/-- A serialization failure tag, from `ser.rs`: every rejected shape
produces `Error::from(ErrorCode::UnsupportedOperation(Direction::Serialization, op))`. -/
def unsupportedSer (op : String) : Except Error String :=
  .error ⟨ErrorCode.UnsupportedOperation Direction.Serialization op⟩

/-- A deserialization failure, from `de.rs`: every rejected request
produces `Error::from(ErrorCode::UnsupportedOperation(Direction::Deserialization, op))`. -/
def unsupportedDe (op : String) : Error :=
  ⟨ErrorCode.UnsupportedOperation Direction.Deserialization op⟩

/-- The space of shapes a serde `Serializer` can be asked to serialize,
one constructor per `serialize_*` entry point of `ser.rs`. Payload-bearing
constructors carry the payload exactly as the corresponding method
receives it (values for scalars, the wrapped value for `some` and the
newtype shapes, the field list for tuple/struct variants); shapes whose
method only receives a length before failing carry that length. -/
inductive SerValue where
  | boolV (v : Bool)
  | i8V (v : Int)
  | i16V (v : Int)
  | i32V (v : Int)
  | i64V (v : Int)
  | u8V (v : Nat)
  | u16V (v : Nat)
  | u32V (v : Nat)
  | u64V (v : Nat)
  | f32V (v : Float)
  | f64V (v : Float)
  | charV (v : Char)
  | strV (v : String)
  | bytesV (v : List Nat)
  | noneV
  | someV (v : SerValue)
  | unitPlain
  | unitStructV (name : String)
  | seqV (len : Option Nat)
  | tupleV (len : Nat)
  | tupleStructV (name : String) (len : Nat)
  | tupleVariantV (name : String) (idx : Nat) (variant : String) (fields : List SerValue)
  | mapV (len : Option Nat)
  | structV (name : String) (len : Nat)
  | structVariantV (name : String) (idx : Nat) (variant : String)
      (fields : List (String × SerValue))
  | collectStrV
  | unitVariantV (name : String) (idx : Nat) (variant : String)
  | newtypeStructV (name : String) (v : SerValue)
  | newtypeVariantV (name : String) (idx : Nat) (variant : String) (v : SerValue)

/-- The serializer for tuple enum variants, from `ser.rs`
(`struct TupleVariantSerializer(&'static str)`). -/
structure TupleVariantSerializer where
  variant : String
deriving DecidableEq

/-- `SerializeTupleVariant::serialize_field` for `TupleVariantSerializer`,
from `ser.rs`: acknowledges and ignores the field. -/
def TupleVariantSerializer.serialize_field (_s : TupleVariantSerializer)
    (_v : SerValue) : Except Error Unit :=
  .ok ()

/-- `SerializeTupleVariant::end` for `TupleVariantSerializer`, from
`ser.rs`: returns the stored variant name. -/
def TupleVariantSerializer.endVariant (s : TupleVariantSerializer) : Except Error String :=
  .ok s.variant

/-- The serializer for struct enum variants, from `ser.rs`
(`struct StructVariantSerializer(&'static str)`). -/
structure StructVariantSerializer where
  variant : String
deriving DecidableEq

/-- `SerializeStructVariant::serialize_field` for `StructVariantSerializer`,
from `ser.rs`: acknowledges and ignores the keyed field. -/
def StructVariantSerializer.serialize_field (_s : StructVariantSerializer)
    (_key : String) (_v : SerValue) : Except Error Unit :=
  .ok ()

/-- `SerializeStructVariant::end` for `StructVariantSerializer`, from
`ser.rs`: returns the stored variant name. -/
def StructVariantSerializer.endVariant (s : StructVariantSerializer) : Except Error String :=
  .ok s.variant

/-- `serialize_tuple_variant` from `ser.rs`: hands back a
`TupleVariantSerializer` holding the variant name. -/
def serialize_tuple_variant (_name : String) (_idx : Nat) (variant : String)
    (_len : Nat) : Except Error TupleVariantSerializer :=
  .ok ⟨variant⟩

/-- `serialize_struct_variant` from `ser.rs`: hands back a
`StructVariantSerializer` holding the variant name. -/
def serialize_struct_variant (_name : String) (_idx : Nat) (variant : String)
    (_len : Nat) : Except Error StructVariantSerializer :=
  .ok ⟨variant⟩

/-- Modelled from the spec: the external traversal framework's
field-by-field visit of a tuple variant (spec section 4.1) — it calls
`serialize_field` once per field and `end` on completion. -/
def runTupleVariant (s : TupleVariantSerializer) : List SerValue → Except Error String
  | [] => s.endVariant
  | v :: rest =>
    match s.serialize_field v with
    | .ok _ => runTupleVariant s rest
    | .error e => .error e

/-- Modelled from the spec: the external traversal framework's
field-by-field visit of a struct variant (spec section 4.1) — it calls
`serialize_field` once per named field and `end` on completion. -/
def runStructVariant (s : StructVariantSerializer) :
    List (String × SerValue) → Except Error String
  | [] => s.endVariant
  | f :: rest =>
    match s.serialize_field f.1 f.2 with
    | .ok _ => runStructVariant s rest
    | .error e => .error e

/-- The encoder, from `ser.rs` (`impl ser::Serializer for &mut Serializer`):
one arm per `serialize_*` method, dispatched on the shape of the value.
`serialize_some` recurses into the wrapped value; tuple and struct variants
go through their field serializers; every non-name-bearing shape fails with
`UnsupportedOperation(Serialization, <shape-name>)`. -/
def serialize : SerValue → Except Error String
  | .boolV _ => unsupportedSer "bool"
  | .i8V _ => unsupportedSer "i8"
  | .i16V _ => unsupportedSer "i16"
  | .i32V _ => unsupportedSer "i32"
  | .i64V _ => unsupportedSer "i64"
  | .u8V _ => unsupportedSer "u8"
  | .u16V _ => unsupportedSer "u16"
  | .u32V _ => unsupportedSer "u32"
  | .u64V _ => unsupportedSer "u64"
  | .f32V _ => unsupportedSer "f32"
  | .f64V _ => unsupportedSer "f64"
  | .charV _ => unsupportedSer "char"
  | .strV _ => unsupportedSer "str"
  | .bytesV _ => unsupportedSer "bytes"
  | .noneV => unsupportedSer "none"
  | .someV v => serialize v
  | .unitPlain => unsupportedSer "unit"
  | .unitStructV name => .ok name
  | .seqV _ => unsupportedSer "seq"
  | .tupleV _ => unsupportedSer "tuple"
  | .tupleStructV _ _ => unsupportedSer "tuple struct"
  | .tupleVariantV name idx variant fields =>
    match serialize_tuple_variant name idx variant fields.length with
    | .ok s => runTupleVariant s fields
    | .error e => .error e
  | .mapV _ => unsupportedSer "map"
  | .structV _ _ => unsupportedSer "struct"
  | .structVariantV name idx variant fields =>
    match serialize_struct_variant name idx variant fields.length with
    | .ok s => runStructVariant s fields
    | .error e => .error e
  | .collectStrV => unsupportedSer "collect str"
  | .unitVariantV _ _ variant => .ok variant
  | .newtypeStructV name _ => .ok name
  | .newtypeVariantV _ _ variant _ => .ok variant

/-- The decoder state, from `de.rs` (`struct Deserializer` holding the
remaining borrowed input slice). -/
structure Deserializer where
  input : String
deriving DecidableEq

/-- `deserialize_str` from `de.rs`: hands the whole remaining input to the
visitor's `visit_borrowed_str`, then unconditionally sets the input to
empty (the assignment happens after the visitor runs, whether or not the
visitor succeeded). Stateful methods are modelled as returning the result
together with the decoder's updated state. -/
def deserialize_str {α : Type} (visitor : String → Except Error α)
    (d : Deserializer) : Except Error α × Deserializer :=
  let res := visitor d.input
  (res, ⟨""⟩)

/-- `deserialize_string` from `de.rs`: delegates to `deserialize_str`. -/
def deserialize_string {α : Type} (visitor : String → Except Error α)
    (d : Deserializer) : Except Error α × Deserializer :=
  deserialize_str visitor d

/-- `deserialize_identifier` from `de.rs`: delegates to `deserialize_str`. -/
def deserialize_identifier {α : Type} (visitor : String → Except Error α)
    (d : Deserializer) : Except Error α × Deserializer :=
  deserialize_str visitor d

/-- `deserialize_unit` from `de.rs`: calls the visitor's `visit_unit`
without touching the input. The visitor's `visit_unit` outcome is passed
in as a value. -/
def deserialize_unit {α : Type} (visitUnit : Except Error α)
    (d : Deserializer) : Except Error α × Deserializer :=
  (visitUnit, d)

/-- `deserialize_unit_struct` from `de.rs`: if the whole remaining input
equals the declared name, empty the input and call the visitor's
`visit_unit`; otherwise fail with
`InvalidType { unexpected: <input>, expected: <name> }`, leaving the
input unchanged. -/
def deserialize_unit_struct {α : Type} (name : String)
    (visitUnit : Except Error α) (d : Deserializer) :
    Except Error α × Deserializer :=
  if d.input = name then
    (visitUnit, ⟨""⟩)
  else
    (.error ⟨ErrorCode.InvalidType d.input name⟩, d)

/-- `VariantAccess::unit_variant` for `VariantName`, from `de.rs`:
unconditionally succeeds. -/
def unit_variant : Except Error Unit :=
  .ok ()

/-- `VariantAccess::newtype_variant_seed` for `VariantName`, from `de.rs`:
unconditionally fails with
`UnsupportedOperation(Deserialization, "new type variant")`. -/
def newtype_variant_seed {α : Type} : Except Error α :=
  .error (unsupportedDe "new type variant")

/-- `VariantAccess::tuple_variant` for `VariantName`, from `de.rs`:
unconditionally fails with
`UnsupportedOperation(Deserialization, "tuple variant")`. -/
def tuple_variant {α : Type} (_len : Nat) : Except Error α :=
  .error (unsupportedDe "tuple variant")

/-- `VariantAccess::struct_variant` for `VariantName`, from `de.rs`:
unconditionally fails with
`UnsupportedOperation(Deserialization, "struct variant")`. -/
def struct_variant {α : Type} (_fields : List String) : Except Error α :=
  .error (unsupportedDe "struct variant")

/-- `deserialize_enum` from `de.rs`: remembers the current input, runs the
visitor's `visit_enum` over the `VariantName` adapter (here an explicit
state-passing visitor argument), and remaps any failure to
`Error::unknown_variant(<original input>, <declared variants>)`. -/
def deserialize_enum {α : Type} (variants : List String)
    (visitEnum : Deserializer → Except Error α × Deserializer)
    (d : Deserializer) : Except Error α × Deserializer :=
  let variant := d.input
  let r := visitEnum d
  match r.1 with
  | .ok v => (.ok v, r.2)
  | .error _ => (.error (Error.unknown_variant variant variants), r.2)

/-- The payload shape a single enum variant declares to the decoder. -/
inductive VariantShape where
  | unitShape
  | newtypeShape
  | tupleShape
  | structShape
deriving DecidableEq

/-- Modelled from the spec: the external traversal framework's derived
enum visitor (spec sections 4.2 and 6), absent from src because it is
generated by the framework for each concrete enum. It reads the
discriminant through the identifier primitive and matches it against the
declared candidate list (failing with `unknown_variant` on no match), then
declares the matched variant's payload shape through the variant-access
adapter; the reconstructed zero-payload value is represented by the
matched variant's name. -/
def enumVisitor (variants : List (String × VariantShape))
    (d : Deserializer) : Except Error String × Deserializer :=
  let r := deserialize_identifier (fun s =>
    match variants.find? (fun p => p.1 == s) with
    | some p => .ok p
    | none => .error (Error.unknown_variant s (variants.map Prod.fst))) d
  match r.1 with
  | .error e => (.error e, r.2)
  | .ok (n, VariantShape.unitShape) =>
    match unit_variant with
    | .ok _ => (.ok n, r.2)
    | .error e => (.error e, r.2)
  | .ok (_, VariantShape.newtypeShape) => ((newtype_variant_seed : Except Error String), r.2)
  | .ok (_, VariantShape.tupleShape) => ((tuple_variant 0 : Except Error String), r.2)
  | .ok (_, VariantShape.structShape) => ((struct_variant [] : Except Error String), r.2)

/-- The full decode of an enum target with the given declared variants:
`deserialize_enum` from `de.rs` driven by the derived enum visitor. -/
def decodeEnum (variants : List (String × VariantShape))
    (d : Deserializer) : Except Error String × Deserializer :=
  deserialize_enum (variants.map Prod.fst) (enumVisitor variants) d

/-- Modelled from the spec: the framework's derived builder for a named
unit type (spec section 4.2) calls the named-unit-type request with a
visitor whose `visit_unit` produces the zero-payload instance. -/
def decodeUnitStruct (name : String) (d : Deserializer) :
    Except Error Unit × Deserializer :=
  deserialize_unit_struct name (.ok ()) d

/-- Modelled from the spec: the boundary function (`from_str` /
`decode_name`, spec section 6) pairing with this decoder is absent from
src — only a legacy-snapshot boundary with a different error type exists
in `lib.rs`. Per the spec it constructs a decoder over the input, runs
the shape-driven decode, and, when the decode succeeds without fully
consuming the input, overrides the result with a `TrailingCharacters`
error. -/
def from_str {α : Type} (decode : Deserializer → Except Error α × Deserializer)
    (input : String) : Except Error α :=
  let r := decode ⟨input⟩
  match r.1 with
  | .error e => .error e
  | .ok v => if r.2.input = "" then .ok v else .error ⟨ErrorCode.TrailingCharacters⟩

theorem runTupleVariant_ok (s : TupleVariantSerializer) (fields : List SerValue) :
    runTupleVariant s fields = .ok s.variant := by
  induction fields with
  | nil => rfl
  | cons v rest ih =>
    simpa [runTupleVariant, TupleVariantSerializer.serialize_field] using ih

theorem runStructVariant_ok (s : StructVariantSerializer)
    (fields : List (String × SerValue)) :
    runStructVariant s fields = .ok s.variant := by
  induction fields with
  | nil => rfl
  | cons f rest ih =>
    simpa [runStructVariant, StructVariantSerializer.serialize_field] using ih

/-- Claim C1: for every value of a name-bearing shape — a named unit type,
a unit enum variant, a newtype enum variant, a tuple enum variant, or a
struct enum variant — the encoder returns `Ok` with exactly the declared
(possibly renamed) name of that type or variant, for all payload values
and field counts; the payload is never serialized (the result is the
declared name even for payloads that themselves would fail to encode). -/
theorem c1_encode_name_bearing (tn : String) (idx : Nat) (name variant : String)
    (payload : SerValue) (fields : List SerValue)
    (sfields : List (String × SerValue)) :
    serialize (SerValue.unitStructV name) = .ok name ∧
    serialize (SerValue.unitVariantV tn idx variant) = .ok variant ∧
    serialize (SerValue.newtypeVariantV tn idx variant payload) = .ok variant ∧
    serialize (SerValue.tupleVariantV tn idx variant fields) = .ok variant ∧
    serialize (SerValue.structVariantV tn idx variant sfields) = .ok variant := by
  refine ⟨rfl, rfl, rfl, ?_, ?_⟩
  · simpa [serialize, serialize_tuple_variant] using
      runTupleVariant_ok ⟨variant⟩ fields
  · simpa [serialize, serialize_struct_variant] using
      runStructVariant_ok ⟨variant⟩ sfields

/-- Claim C7: for every value of a non-name-bearing shape (boolean, any
integer width, either floating-point width, character, string, byte
string, absent optional, unnamed unit, sequence, unnamed tuple, plain
tuple struct, map, plain struct with fields, and the catch-all
`collect_str`), the encoder fails with
`UnsupportedOperation(Serialization, <shape-name>)` identifying the
attempted operation; no non-name-bearing shape ever encodes
successfully. -/
theorem c7_encode_rejects_non_name_bearing (b : Bool) (i : Int) (n : Nat)
    (x : Float) (c : Char) (s : String) (bs : List Nat) (len : Nat)
    (olen : Option Nat) (tn : String) :
    serialize (SerValue.boolV b) =
      .error ⟨ErrorCode.UnsupportedOperation Direction.Serialization "bool"⟩ ∧
    serialize (SerValue.i8V i) =
      .error ⟨ErrorCode.UnsupportedOperation Direction.Serialization "i8"⟩ ∧
    serialize (SerValue.i16V i) =
      .error ⟨ErrorCode.UnsupportedOperation Direction.Serialization "i16"⟩ ∧
    serialize (SerValue.i32V i) =
      .error ⟨ErrorCode.UnsupportedOperation Direction.Serialization "i32"⟩ ∧
    serialize (SerValue.i64V i) =
      .error ⟨ErrorCode.UnsupportedOperation Direction.Serialization "i64"⟩ ∧
    serialize (SerValue.u8V n) =
      .error ⟨ErrorCode.UnsupportedOperation Direction.Serialization "u8"⟩ ∧
    serialize (SerValue.u16V n) =
      .error ⟨ErrorCode.UnsupportedOperation Direction.Serialization "u16"⟩ ∧
    serialize (SerValue.u32V n) =
      .error ⟨ErrorCode.UnsupportedOperation Direction.Serialization "u32"⟩ ∧
    serialize (SerValue.u64V n) =
      .error ⟨ErrorCode.UnsupportedOperation Direction.Serialization "u64"⟩ ∧
    serialize (SerValue.f32V x) =
      .error ⟨ErrorCode.UnsupportedOperation Direction.Serialization "f32"⟩ ∧
    serialize (SerValue.f64V x) =
      .error ⟨ErrorCode.UnsupportedOperation Direction.Serialization "f64"⟩ ∧
    serialize (SerValue.charV c) =
      .error ⟨ErrorCode.UnsupportedOperation Direction.Serialization "char"⟩ ∧
    serialize (SerValue.strV s) =
      .error ⟨ErrorCode.UnsupportedOperation Direction.Serialization "str"⟩ ∧
    serialize (SerValue.bytesV bs) =
      .error ⟨ErrorCode.UnsupportedOperation Direction.Serialization "bytes"⟩ ∧
    serialize SerValue.noneV =
      .error ⟨ErrorCode.UnsupportedOperation Direction.Serialization "none"⟩ ∧
    serialize SerValue.unitPlain =
      .error ⟨ErrorCode.UnsupportedOperation Direction.Serialization "unit"⟩ ∧
    serialize (SerValue.seqV olen) =
      .error ⟨ErrorCode.UnsupportedOperation Direction.Serialization "seq"⟩ ∧
    serialize (SerValue.tupleV len) =
      .error ⟨ErrorCode.UnsupportedOperation Direction.Serialization "tuple"⟩ ∧
    serialize (SerValue.tupleStructV tn len) =
      .error ⟨ErrorCode.UnsupportedOperation Direction.Serialization "tuple struct"⟩ ∧
    serialize (SerValue.mapV olen) =
      .error ⟨ErrorCode.UnsupportedOperation Direction.Serialization "map"⟩ ∧
    serialize (SerValue.structV tn len) =
      .error ⟨ErrorCode.UnsupportedOperation Direction.Serialization "struct"⟩ ∧
    serialize SerValue.collectStrV =
      .error ⟨ErrorCode.UnsupportedOperation Direction.Serialization "collect str"⟩ := by
  repeat constructor

/-- Claim C8: for every input string, a string, string-buffer, or
identifier decode request yields the entire remaining input to the
visitor as a borrowed slice and consumes it — the decoder's remaining
input is the empty string afterwards. -/
theorem c8_str_yields_whole_input {α : Type} (visitor : String → Except Error α)
    (input : String) :
    deserialize_str visitor ⟨input⟩ = (visitor input, ⟨""⟩) ∧
    deserialize_string visitor ⟨input⟩ = (visitor input, ⟨""⟩) ∧
    deserialize_identifier visitor ⟨input⟩ = (visitor input, ⟨""⟩) :=
  ⟨rfl, rfl, rfl⟩

/-- Claim C9: after a string decode request returns, the decoder's input
is empty even when the visitor returned an error — the input is consumed
unconditionally, not only on success. -/
theorem c9_str_consumes_even_on_error {α : Type}
    (visitor : String → Except Error α) (input : String) (e : Error) :
    (deserialize_str visitor ⟨input⟩).2 = ⟨""⟩ ∧
    deserialize_str (fun _ => (.error e : Except Error α)) ⟨input⟩ =
      (.error e, ⟨""⟩) :=
  ⟨rfl, rfl⟩

/-- Claim C10: for every input string, a plain (unnamed) unit decode
request succeeds by producing the visitor's unit value and leaves the
decoder's input unchanged — it is not rejected and consumes nothing. -/
theorem c10_unit_passes_through {α : Type} (visitUnit : Except Error α)
    (input : String) :
    deserialize_unit visitUnit ⟨input⟩ = (visitUnit, ⟨input⟩) ∧
    deserialize_unit (Except.ok ()) ⟨input⟩ = (Except.ok (), ⟨input⟩) :=
  ⟨rfl, rfl⟩

/-- Claim C2: a named-unit-type decode request succeeds if and only if the
entire remaining input equals the declared name exactly (case-sensitive,
whitespace-sensitive, no trimming); on success the input is set to empty
and the zero-payload visitor value is produced, and on mismatch it fails
with `InvalidType { unexpected: <full input>, expected: <declared name> }`
with the input left unchanged. In particular decoding a unit type named
"Foo" from "foo", "Foo ", " Foo" or "FOo" always fails. -/
theorem c2_unit_struct_exact_match {α : Type} (visitUnit : Except Error α)
    (name input : String) :
    (input = name →
      deserialize_unit_struct name visitUnit ⟨input⟩ = (visitUnit, ⟨""⟩)) ∧
    (input ≠ name →
      deserialize_unit_struct name visitUnit ⟨input⟩ =
        (.error ⟨ErrorCode.InvalidType input name⟩, ⟨input⟩)) ∧
    (∀ s ∈ (["foo", "Foo ", " Foo", "FOo"] : List String),
      (decodeUnitStruct "Foo" ⟨s⟩).1 =
        .error ⟨ErrorCode.InvalidType s "Foo"⟩) := by
  refine ⟨fun h => ?_, fun h => ?_, ?_⟩
  · simp [deserialize_unit_struct, h]
  · simp [deserialize_unit_struct, h]
  · decide

theorem c2_unit_struct_exact_match_witness :
    deserialize_unit_struct "Foo" (Except.ok ()) ⟨"Foo"⟩ =
      (Except.ok (), ⟨""⟩) ∧
    deserialize_unit_struct "Foo" (Except.ok ()) ⟨"foo"⟩ =
      (.error ⟨ErrorCode.InvalidType "foo" "Foo"⟩, ⟨"foo"⟩) :=
  ⟨(c2_unit_struct_exact_match (Except.ok ()) "Foo" "Foo").1 rfl,
   (c2_unit_struct_exact_match (Except.ok ()) "Foo" "foo").2.1 (by decide)⟩

/-- Claim C3 counterexample: decoding a unit type named "Foo" from input
"Foo!" does not fail with a trailing-characters condition — it fails with
`InvalidType { unexpected: "Foo!", expected: "Foo" }`, because the
decoder's exact-match check rejects the input before any success could
reach the boundary function's trailing check. -/
theorem c3_trailing_counterexample :
    from_str (decodeUnitStruct "Foo") "Foo!" =
      .error ⟨ErrorCode.InvalidType "Foo!" "Foo"⟩ ∧
    from_str (decodeUnitStruct "Foo") "Foo!" ≠
      .error ⟨ErrorCode.TrailingCharacters⟩ := by
  decide

/-- Claim C3 (amended): for every decode that succeeds but leaves the
decoder's input non-empty, the boundary function overrides the success
and returns `TrailingCharacters`; decoding a unit type named "Foo" from
"Foo!" or "FooX" fails, but with `InvalidType` from the decoder's
exact-match check rather than a trailing-characters condition — a
successful named-unit-type decode always consumes the whole input, so the
trailing check never fires for it. -/
theorem c3_trailing_override {α : Type}
    (decode : Deserializer → Except Error α × Deserializer)
    (input : String) (v : α) (d' : Deserializer)
    (h : decode ⟨input⟩ = (.ok v, d')) (hne : d'.input ≠ "") :
    from_str decode input = .error ⟨ErrorCode.TrailingCharacters⟩ ∧
    from_str (decodeUnitStruct "Foo") "Foo!" =
      .error ⟨ErrorCode.InvalidType "Foo!" "Foo"⟩ ∧
    from_str (decodeUnitStruct "Foo") "FooX" =
      .error ⟨ErrorCode.InvalidType "FooX" "Foo"⟩ := by
  refine ⟨?_, by decide, by decide⟩
  simp [from_str, h, hne]

theorem c3_trailing_override_witness :
    from_str (deserialize_unit (Except.ok ())) "x" =
      .error ⟨ErrorCode.TrailingCharacters⟩ :=
  (c3_trailing_override (deserialize_unit (Except.ok ())) "x" () ⟨"x"⟩
    rfl (by decide)).1

/-- Claim C5: on an enum decode request, if the inner variant probing
fails then the error returned is
`InvalidVariantName { received: <original full input>, allowed: <declared
candidate names> }` rather than the inner error; in particular decoding an
enum with declared variants "Var1" and "VAR2" from input "Var3" fails with
`InvalidVariantName { received: "Var3", allowed: ["Var1", "VAR2"] }`. -/
theorem c5_enum_error_remap {α : Type} (variants : List String)
    (visitEnum : Deserializer → Except Error α × Deserializer)
    (input : String) (e : Error) (d' : Deserializer)
    (h : visitEnum ⟨input⟩ = (.error e, d')) :
    deserialize_enum variants visitEnum ⟨input⟩ =
      (.error ⟨ErrorCode.InvalidVariantName input variants⟩, d') ∧
    (decodeEnum [("Var1", VariantShape.unitShape),
        ("VAR2", VariantShape.unitShape)] ⟨"Var3"⟩).1 =
      .error ⟨ErrorCode.InvalidVariantName "Var3" ["Var1", "VAR2"]⟩ := by
  refine ⟨?_, by decide⟩
  simp [deserialize_enum, h, Error.unknown_variant]

theorem c5_enum_error_remap_witness :
    deserialize_enum ["Var1", "VAR2"]
      (enumVisitor [("Var1", VariantShape.unitShape),
        ("VAR2", VariantShape.unitShape)]) ⟨"Var3"⟩ =
      (.error ⟨ErrorCode.InvalidVariantName "Var3" ["Var1", "VAR2"]⟩, ⟨""⟩) :=
  (c5_enum_error_remap ["Var1", "VAR2"]
    (enumVisitor [("Var1", VariantShape.unitShape),
      ("VAR2", VariantShape.unitShape)])
    "Var3" (Error.unknown_variant "Var3" ["Var1", "VAR2"]) ⟨""⟩ (by decide)).1

/-- Claim C6: in the variant-access phase, the no-payload declaration
always succeeds regardless of the name read, while the newtype, tuple and
struct variant declarations always fail with
`UnsupportedOperation(Deserialization, <payload-shape-name>)`;
consequently decoding any payload-carrying enum variant always fails,
even when the input exactly equals that variant's declared name (the
failure surfaces as the remapped `InvalidVariantName`). -/
theorem c6_payload_variants_rejected {α : Type} (len : Nat)
    (fieldNames : List String) (vs : List (String × VariantShape))
    (name : String) (shape : VariantShape)
    (hfind : vs.find? (fun p => p.1 == name) = some (name, shape))
    (hshape : shape ≠ VariantShape.unitShape) :
    unit_variant = .ok () ∧
    (newtype_variant_seed : Except Error α) =
      .error ⟨ErrorCode.UnsupportedOperation Direction.Deserialization
        "new type variant"⟩ ∧
    (tuple_variant len : Except Error α) =
      .error ⟨ErrorCode.UnsupportedOperation Direction.Deserialization
        "tuple variant"⟩ ∧
    (struct_variant fieldNames : Except Error α) =
      .error ⟨ErrorCode.UnsupportedOperation Direction.Deserialization
        "struct variant"⟩ ∧
    from_str (decodeEnum vs) name =
      .error ⟨ErrorCode.InvalidVariantName name (vs.map Prod.fst)⟩ := by
  refine ⟨rfl, rfl, rfl, rfl, ?_⟩
  cases shape with
  | unitShape => exact absurd rfl hshape
  | newtypeShape =>
    simp [from_str, decodeEnum, deserialize_enum, enumVisitor,
      deserialize_identifier, deserialize_str, hfind, newtype_variant_seed,
      unsupportedDe, Error.unknown_variant]
  | tupleShape =>
    simp [from_str, decodeEnum, deserialize_enum, enumVisitor,
      deserialize_identifier, deserialize_str, hfind, tuple_variant,
      unsupportedDe, Error.unknown_variant]
  | structShape =>
    simp [from_str, decodeEnum, deserialize_enum, enumVisitor,
      deserialize_identifier, deserialize_str, hfind, struct_variant,
      unsupportedDe, Error.unknown_variant]

theorem c6_payload_variants_rejected_witness :
    from_str (decodeEnum [("Baz", VariantShape.newtypeShape)]) "Baz" =
      .error ⟨ErrorCode.InvalidVariantName "Baz" ["Baz"]⟩ :=
  (c6_payload_variants_rejected (α := Unit) 0 []
    [("Baz", VariantShape.newtypeShape)] "Baz" VariantShape.newtypeShape
    (by decide) (by decide)).2.2.2.2

/-- Claim C4: round trip — for a unit type and for a unit enum variant
with declared name `name`, encoding yields `Ok name`, decoding that string
back succeeds and reproduces the zero-payload value, and encoding the
reproduced value again yields exactly `name`. -/
theorem c4_round_trip (name tn : String) (idx : Nat)
    (vs : List (String × VariantShape))
    (hfind : vs.find? (fun p => p.1 == name) =
      some (name, VariantShape.unitShape)) :
    serialize (SerValue.unitStructV name) = .ok name ∧
    from_str (decodeUnitStruct name) name = .ok () ∧
    serialize (SerValue.unitVariantV tn idx name) = .ok name ∧
    from_str (decodeEnum vs) name = .ok name := by
  refine ⟨rfl, ?_, rfl, ?_⟩
  · simp [from_str, decodeUnitStruct, deserialize_unit_struct]
  · simp [from_str, decodeEnum, deserialize_enum, enumVisitor,
      deserialize_identifier, deserialize_str, hfind, unit_variant]

theorem c4_round_trip_witness :
    serialize (SerValue.unitStructV "Var1") = .ok "Var1" ∧
    from_str (decodeUnitStruct "Var1") "Var1" = .ok () ∧
    serialize (SerValue.unitVariantV "Foo" 0 "Var1") = .ok "Var1" ∧
    from_str (decodeEnum [("Var1", VariantShape.unitShape)]) "Var1" =
      .ok "Var1" :=
  c4_round_trip "Var1" "Foo" 0 [("Var1", VariantShape.unitShape)] (by decide)

end SerdeVariant
